import Mathlib

/-!
Verification of the API caching client of the finance-dashboard repository
(`src/client.py`): cache store, parameter fingerprinter, transport retry
policy, and the cached fetch orchestrator `_cached_api_call`, together with
the public wrappers `get_company_overview` and `get_income_statement`.

Modeling conventions:
  * Python `str` values that the proofs reason about structurally
    (fingerprint inputs and outputs) are modeled as `List Char`; strings
    only compared for equality (function tags, symbols, payload keys)
    are modeled as Lean `String`.
  * JSON object payloads are modeled as association lists of string keys
    to string values (`Payload`); the claims only need key membership,
    key lookup and whole-payload equality, for which this is faithful.
  * The TEXT column holding `json.dumps(payload)` is modeled up to JSON
    decodability: `some p` stands for text that `json.loads` decodes to
    `p`, and `none` for corrupt text that raises `json.JSONDecodeError`.
    This is faithful because `json.loads (json.dumps p) = p`.
  * Clock reads (`int(time.time())`) are passed as explicit `Int`
    arguments, and the outcome of the HTTP GET performed by the global
    `SESSION` is passed to the orchestrator as an explicit
    `Except TransportError Payload` argument, so that "no transport call"
    is expressible as independence from that argument.
-/

/-- Python strings, modeled as lists of characters. -/
abbrev Str := List Char

/-- One `key=value` parameter pair of a Python dict, both as strings. -/
abbrev ParamPair := Str × Str

/-- JSON object payload: association list from field name to value. -/
abbrev Payload := List (String × String)

/-- Python `dict.get(k)`: the value at the first matching key, else `None`.
Source: used at `client.py:124-126` via `data.get(...)`. -/
def dict_get (d : Payload) (k : String) : Option String :=
  (d.find? (fun kv => kv.1 == k)).map (·.2)

/-- Lookup in a raw parameter mapping (`List ParamPair`), first match. -/
def param_get (p : List ParamPair) (k : Str) : Option Str :=
  (p.find? (fun kv => kv.1 == k)).map (·.2)

/-- the `TTL_BY_FUNCTION` dict of `client.py:17-20`. -/
def TTL_BY_FUNCTION : List (String × Int) :=
  [("OVERVIEW", 24 * 3600), ("INCOME_STATEMENT", 24 * 3600)]

/-- the lookup `TTL_BY_FUNCTION.get(function, 24 * 3600)` of `client.py:105`. -/
def ttl_for (function : String) : Int :=
  ((TTL_BY_FUNCTION.find? (fun kv => kv.1 == function)).map (·.2)).getD (24 * 3600)

/-- One row of the `api_cache` table created in `_init_cache`
(`client.py:27-43`): columns `function, symbol, params_hash, response,
timestamp` with primary key on the first three. `response` holds the
stored TEXT, modeled up to JSON decodability (see file header). -/
structure Row where
  function : String
  symbol : String
  params_hash : Str
  response : Option Payload
  timestamp : Int
deriving DecidableEq, Repr

/-- the `api_cache` table contents, as a multiset of rows (list order is
not meaningful; uniqueness per key is the PRIMARY KEY invariant proved
below, not baked into the type). -/
abbrev Store := List Row

/-- the schema creation `CREATE TABLE IF NOT EXISTS` of `_init_cache`
(`client.py:27-43`): on a database that already holds the table it is a
no-op, on a fresh database it creates the empty table. -/
def init_cache (db : Option Store) : Store :=
  db.getD []

/-- Python string comparison (`<` on `str`) is lexicographic by code
point; `List Char` with Mathlib's lexicographic order models it. Sorting
key for `sorted(params.items())` (`client.py:47`): Python compares the
`(key, value)` tuples lexicographically. -/
def pairLe (x y : ParamPair) : Prop :=
  x.1 < y.1 ∨ (x.1 = y.1 ∧ x.2 ≤ y.2)

instance : DecidableRel pairLe := fun x y => by
  unfold pairLe; infer_instance

/-- the f-string `f"{k}={v}"` of `client.py:48`. -/
def encode_pair (kv : ParamPair) : Str :=
  kv.1 ++ '=' :: kv.2

/-- `_params_hash` (`client.py:46-48`):
`"|".join(f"{k}={v}" for k, v in sorted(params.items())) if items else "_"`. -/
def params_hash (params : List ParamPair) : Str :=
  let items := List.insertionSort pairLe params
  if items.isEmpty then ['_']
  else List.intercalate ['|'] (items.map encode_pair)


/-- parameter mappings whose keys and values avoid the two delimiter
characters `'='` and `'|'` used by `_params_hash`. -/
def delim_free (p : List ParamPair) : Prop :=
  ∀ kv ∈ p, '=' ∉ kv.1 ∧ '=' ∉ kv.2 ∧ '|' ∉ kv.1 ∧ '|' ∉ kv.2

instance (p : List ParamPair) : Decidable (delim_free p) := by
  unfold delim_free; infer_instance

/-- the SQL `WHERE function=? AND symbol=? AND params_hash=?` predicate of
`cache_get`/`cache_set`/`REPLACE` (`client.py:55`, `client.py:71`). -/
def row_key_eq (r : Row) (function symbol : String) (ph : Str) : Bool :=
  r.function == function && r.symbol == symbol && r.params_hash == ph

/-- rows of the table matching one primary key, for stating the PRIMARY
KEY uniqueness invariant of `api_cache` (`client.py:37`). -/
def rows_for_key (store : Store) (function symbol : String) (ph : Str) : List Row :=
  store.filter (fun r => row_key_eq r function symbol ph)

/-- the PRIMARY KEY invariant: at most one row per cache key. -/
def at_most_one_per_key (store : Store) : Prop :=
  ∀ function symbol ph, (rows_for_key store function symbol ph).length ≤ 1

/-- the dict `{"data": json.loads(response_text), "ts": ts}` returned by
`cache_get` (`client.py:62`). -/
structure CacheHit where
  data : Payload
  ts : Int
deriving DecidableEq, Repr

/-- `cache_get` (`client.py:51-64`): point lookup by the three key
columns; absent row gives `None`; a row whose stored text fails to decode
(`json.JSONDecodeError`) also gives `None`. `params_extra or {}` defaults
`None` to the empty dict. -/
def cache_get (store : Store) (function symbol : String)
    (params_extra : Option (List ParamPair)) : Option CacheHit :=
  let ph := params_hash (params_extra.getD [])
  match store.find? (fun r => row_key_eq r function symbol ph) with
  | none => none
  | some r =>
    match r.response with
    | some d => some ⟨d, r.timestamp⟩
    | none => none

/-- `cache_set` (`client.py:67-73`): `REPLACE INTO api_cache ...` deletes
any row conflicting on the primary key and inserts the new row. The
`int(time.time())` taken at the write is the explicit `ts` argument; the
stored text is `json.dumps(payload)`, which decodes back to `payload`. -/
def cache_set (store : Store) (function symbol : String)
    (params_extra : Option (List ParamPair)) (payload : Payload) (ts : Int) : Store :=
  let ph := params_hash (params_extra.getD [])
  store.filter (fun r => !(row_key_eq r function symbol ph)) ++
    [⟨function, symbol, ph, some payload, ts⟩]

/-- the `urllib3.util.retry.Retry` configuration of `_build_session`
(`client.py:76-90`). -/
structure RetryPolicy where
  total : Nat
  backoff_factor : Nat
  status_forcelist : List Nat
  allowed_methods : List String
deriving DecidableEq, Repr

/-- the policy mounted on `SESSION` (`client.py:78-83`):
`Retry(total=3, backoff_factor=1, status_forcelist=[429, 500, 502, 503, 504],
allowed_methods=["GET"])`. -/
def build_session_retry : RetryPolicy :=
  ⟨3, 1, [429, 500, 502, 503, 504], ["GET"]⟩

/-- outcome of one low-level HTTP attempt: a connection-level failure, or
an HTTP response with a status code and decoded body. -/
inductive AttemptOutcome where
  | conn_failure
  | response (status : Nat) (body : Payload)
deriving DecidableEq, Repr

/-- overall result of the retrying GET: the final response, or a
`MaxRetryError` surfaced by `requests` once retries are exhausted. -/
inductive SessionResult where
  | ok (status : Nat) (body : Payload)
  | retries_exhausted
deriving DecidableEq, Repr

/-- whether `urllib3` retries a given attempt outcome under the policy:
connection failures, and responses whose status is in `status_forcelist`
(the request method `GET` is in `allowed_methods`). -/
def attempt_retryable (p : RetryPolicy) (o : AttemptOutcome) : Bool :=
  match o with
  | .conn_failure => true
  | .response st _ => p.status_forcelist.contains st

/-- retry loop of `urllib3.util.retry.Retry` as configured by
`_build_session`: `total` counts *retries*, so up to `total + 1` requests
are issued; after each retryable failure the remaining count decrements
and, once it would go negative, `MaxRetryError` is raised. The sleep
before the k-th retry is `backoff_factor * 2 ^ (k - 1)` seconds (the
source comment at `client.py:80` notes this as 1s, 2s, 4s). Arguments:
remaining retries, then 0-based index of the current attempt into the
stream of attempt outcomes; returns the result, the number of attempts
actually issued, and the list of backoff sleeps. -/
def run_retries (p : RetryPolicy) (outcomes : Nat → AttemptOutcome) :
    Nat → Nat → SessionResult × Nat × List Nat
  | 0, i =>
    match outcomes i with
    | .conn_failure => (.retries_exhausted, i + 1, [])
    | .response st body =>
      if p.status_forcelist.contains st then (.retries_exhausted, i + 1, [])
      else (.ok st body, i + 1, [])
  | r + 1, i =>
    match outcomes i with
    | .conn_failure =>
      let rest := run_retries p outcomes r (i + 1)
      (rest.1, rest.2.1, p.backoff_factor * 2 ^ i :: rest.2.2)
    | .response st body =>
      if p.status_forcelist.contains st then
        let rest := run_retries p outcomes r (i + 1)
        (rest.1, rest.2.1, p.backoff_factor * 2 ^ i :: rest.2.2)
      else (.ok st body, i + 1, [])

/-- one logical `SESSION.get(BASE_URL, params=..., timeout=30)`
(`client.py:115`) against a stream of low-level attempt outcomes. -/
def session_get (p : RetryPolicy) (outcomes : Nat → AttemptOutcome) :
    SessionResult × Nat × List Nat :=
  run_retries p outcomes p.total 0

/-- hard transport-level failures of the GET at `client.py:115-117`:
exhausted retries (a `requests` exception wrapping `MaxRetryError`), an
error status surfaced by `resp.raise_for_status()`, or a body that
`resp.json()` fails to decode. -/
inductive TransportError where
  | retry_error
  | http_status (status : Nat)
  | json_decode
deriving DecidableEq, Repr

/-- `resp.raise_for_status()` followed by `resp.json()`
(`client.py:116-117`) applied to the session result: statuses in
`[400, 600)` raise `HTTPError`; the modeled statuses are the error ones,
so `400 ≤ st` is the raise condition. -/
def session_to_transport (res : SessionResult) : Except TransportError Payload :=
  match res with
  | .retries_exhausted => .error .retry_error
  | .ok st body => if 400 ≤ st then .error (.http_status st) else .ok body

/-- `_is_limit_or_error` (`client.py:93-95`):
`any(k in payload for k in ["Information", "Note", "Error Message"])`. -/
def is_limit_or_error (payload : Payload) : Bool :=
  ["Information", "Note", "Error Message"].any
    (fun k => payload.any (fun kv => kv.1 == k))

/-- Python `a or default` on an optional string: `None` and the empty
string are falsy and fall through to the default. -/
def py_or_str (o : Option String) (default : String) : String :=
  match o with
  | some s => if s = "" then default else s
  | none => default

/-- the `RuntimeError` message chain of `client.py:123-128`:
`data.get("Information") or data.get("Note") or data.get("Error Message")
or "Unknown API error"`. -/
def api_error_message (data : Payload) : String :=
  py_or_str (dict_get data "Information")
    (py_or_str (dict_get data "Note")
      (py_or_str (dict_get data "Error Message") "Unknown API error"))

/-- failures `_cached_api_call` can raise to its caller: a propagated
transport exception, or the `RuntimeError` of `client.py:123-128`. -/
inductive FetchError where
  | transport (e : TransportError)
  | runtime (msg : String)
deriving DecidableEq, Repr

/-- the code of `_cached_api_call` after the freshness check
(`client.py:113-131`): perform the API call (its outcome is the
`transport` argument, `client.py:114-117`), classify the decoded body,
fall back to the stale `cached` value on a soft error when allowed, raise
`RuntimeError` otherwise, and on success write back and return. Returns
the call's result together with the store after the call. -/
def after_miss (function symbol : String) (pe : List ParamPair)
    (allow_stale_on_limit : Bool) (now : Int) (store : Store)
    (cached : Option CacheHit) (transport : Except TransportError Payload) :
    Except FetchError Payload × Store :=
  match transport with
  | .error e => (.error (.transport e), store)
  | .ok data =>
    if is_limit_or_error data then
      match cached with
      | some c =>
        if allow_stale_on_limit then (.ok c.data, store)
        else (.error (.runtime (api_error_message data)), store)
      | none => (.error (.runtime (api_error_message data)), store)
    else
      (.ok data, cache_set store function symbol (some pe) data now)

/-- `_cached_api_call` (`client.py:98-131`): default the parameters
(`params_extra or {}`), look up the TTL, consult the cache, serve a fresh
hit within the TTL without touching the network, and otherwise run the
post-miss code. `now` is the `int(time.time())` of `client.py:109`. -/
def cached_api_call (function symbol : String)
    (params_extra : Option (List ParamPair)) (allow_stale_on_limit : Bool)
    (now : Int) (store : Store) (transport : Except TransportError Payload) :
    Except FetchError Payload × Store :=
  let pe := params_extra.getD []
  let ttl := ttl_for function
  let cached := cache_get store function symbol (some pe)
  match cached with
  | some c =>
    if now - c.ts < ttl then (.ok c.data, store)
    else after_miss function symbol pe allow_stale_on_limit now store (some c) transport
  | none => after_miss function symbol pe allow_stale_on_limit now store none transport

/-- the `MOCK_OVERVIEW` constant of `client.py:134-420`: five hard-coded
company-overview records. -/
def MOCK_OVERVIEW : List Payload :=
  [
   [("Symbol", "TEL"),
    ("AssetType", "Common Stock"),
    ("Name", "TE Connectivity Ltd."),
    ("Description", "Global technology leader in connectors and sensors for harsh environments."),
    ("CIK", "1385157"),
    ("Exchange", "NYSE"),
    ("Currency", "USD"),
    ("Country", "USA"),
    ("Sector", "Industrials"),
    ("Industry", "Electronic Components"),
    ("Address", "1050 Westlakes Dr, Berwyn, PA 19312"),
    ("OfficialSite", "https://www.te.com"),
    ("FiscalYearEnd", "September"),
    ("LatestQuarter", "2025-06-30"),
    ("MarketCapitalization", "42000000000"),
    ("EBITDA", "3800000000"),
    ("PERatio", "25.30"),
    ("PEGRatio", "1.80"),
    ("BookValue", "29.50"),
    ("DividendPerShare", "2.40"),
    ("DividendYield", "0.0170"),
    ("EPS", "6.20"),
    ("RevenuePerShareTTM", "72.50"),
    ("ProfitMargin", "0.120"),
    ("OperatingMarginTTM", "0.160"),
    ("ReturnOnAssetsTTM", "0.090"),
    ("ReturnOnEquityTTM", "0.220"),
    ("RevenueTTM", "23500000000"),
    ("GrossProfitTTM", "8400000000"),
    ("DilutedEPSTTM", "6.10"),
    ("QuarterlyEarningsGrowthYOY", "0.080"),
    ("QuarterlyRevenueGrowthYOY", "0.030"),
    ("AnalystTargetPrice", "170.00"),
    ("AnalystRatingStrongBuy", "5"),
    ("AnalystRatingBuy", "9"),
    ("AnalystRatingHold", "10"),
    ("AnalystRatingSell", "1"),
    ("AnalystRatingStrongSell", "0"),
    ("TrailingPE", "26.10"),
    ("ForwardPE", "22.40"),
    ("PriceToSalesRatioTTM", "2.10"),
    ("PriceToBookRatio", "5.80"),
    ("EVToRevenue", "2.20"),
    ("EVToEBITDA", "13.50"),
    ("Beta", "1.05"),
    ("52WeekHigh", "174.20"),
    ("52WeekLow", "121.80"),
    ("50DayMovingAverage", "162.40"),
    ("200DayMovingAverage", "154.20"),
    ("SharesOutstanding", "314000000"),
    ("SharesFloat", "312000000"),
    ("PercentInsiders", "0.50"),
    ("PercentInstitutions", "91.20"),
    ("DividendDate", "2025-09-10"),
    ("ExDividendDate", "2025-08-16")],
   [("Symbol", "ST"),
    ("AssetType", "Common Stock"),
    ("Name", "Sensata Technologies Holding plc"),
    ("Description", "Provider of sensor-rich solutions enabling electrification, efficiency, and safety."),
    ("CIK", "1477294"),
    ("Exchange", "NYSE"),
    ("Currency", "USD"),
    ("Country", "USA"),
    ("Sector", "Industrials"),
    ("Industry", "Electronic Components"),
    ("Address", "529 Pleasant St, Attleboro, MA 02703"),
    ("OfficialSite", "https://www.sensata.com"),
    ("FiscalYearEnd", "December"),
    ("LatestQuarter", "2025-06-30"),
    ("MarketCapitalization", "6900000000"),
    ("EBITDA", "980000000"),
    ("PERatio", "17.50"),
    ("PEGRatio", "1.40"),
    ("BookValue", "25.10"),
    ("DividendPerShare", "0.48"),
    ("DividendYield", "0.0130"),
    ("EPS", "2.85"),
    ("RevenuePerShareTTM", "32.40"),
    ("ProfitMargin", "0.085"),
    ("OperatingMarginTTM", "0.140"),
    ("ReturnOnAssetsTTM", "0.060"),
    ("ReturnOnEquityTTM", "0.110"),
    ("RevenueTTM", "5150000000"),
    ("GrossProfitTTM", "1680000000"),
    ("DilutedEPSTTM", "2.75"),
    ("QuarterlyEarningsGrowthYOY", "0.050"),
    ("QuarterlyRevenueGrowthYOY", "0.020"),
    ("AnalystTargetPrice", "48.00"),
    ("AnalystRatingStrongBuy", "3"),
    ("AnalystRatingBuy", "7"),
    ("AnalystRatingHold", "11"),
    ("AnalystRatingSell", "1"),
    ("AnalystRatingStrongSell", "0"),
    ("TrailingPE", "18.10"),
    ("ForwardPE", "14.90"),
    ("PriceToSalesRatioTTM", "1.30"),
    ("PriceToBookRatio", "2.10"),
    ("EVToRevenue", "1.60"),
    ("EVToEBITDA", "8.40"),
    ("Beta", "1.32"),
    ("52WeekHigh", "52.60"),
    ("52WeekLow", "32.10"),
    ("50DayMovingAverage", "44.80"),
    ("200DayMovingAverage", "41.10"),
    ("SharesOutstanding", "153000000"),
    ("SharesFloat", "150000000"),
    ("PercentInsiders", "1.10"),
    ("PercentInstitutions", "98.00"),
    ("DividendDate", "2025-08-22"),
    ("ExDividendDate", "2025-08-07")],
   [("Symbol", "DD"),
    ("AssetType", "Common Stock"),
    ("Name", "DuPont de Nemours, Inc."),
    ("Description", "Innovation-driven specialty materials and electronics company."),
    ("CIK", "1666700"),
    ("Exchange", "NYSE"),
    ("Currency", "USD"),
    ("Country", "USA"),
    ("Sector", "Materials"),
    ("Industry", "Specialty Chemicals"),
    ("Address", "974 Centre Rd, Wilmington, DE 19805"),
    ("OfficialSite", "https://www.dupont.com"),
    ("FiscalYearEnd", "December"),
    ("LatestQuarter", "2025-06-30"),
    ("MarketCapitalization", "33000000000"),
    ("EBITDA", "4100000000"),
    ("PERatio", "22.10"),
    ("PEGRatio", "2.00"),
    ("BookValue", "39.70"),
    ("DividendPerShare", "1.44"),
    ("DividendYield", "0.0190"),
    ("EPS", "3.30"),
    ("RevenuePerShareTTM", "28.10"),
    ("ProfitMargin", "0.160"),
    ("OperatingMarginTTM", "0.210"),
    ("ReturnOnAssetsTTM", "0.070"),
    ("ReturnOnEquityTTM", "0.130"),
    ("RevenueTTM", "14200000000"),
    ("GrossProfitTTM", "5800000000"),
    ("DilutedEPSTTM", "3.25"),
    ("QuarterlyEarningsGrowthYOY", "0.120"),
    ("QuarterlyRevenueGrowthYOY", "0.040"),
    ("AnalystTargetPrice", "92.00"),
    ("AnalystRatingStrongBuy", "4"),
    ("AnalystRatingBuy", "10"),
    ("AnalystRatingHold", "9"),
    ("AnalystRatingSell", "1"),
    ("AnalystRatingStrongSell", "0"),
    ("TrailingPE", "23.00"),
    ("ForwardPE", "18.40"),
    ("PriceToSalesRatioTTM", "2.30"),
    ("PriceToBookRatio", "2.60"),
    ("EVToRevenue", "2.80"),
    ("EVToEBITDA", "9.70"),
    ("Beta", "1.06"),
    ("52WeekHigh", "89.50"),
    ("52WeekLow", "63.70"),
    ("50DayMovingAverage", "82.10"),
    ("200DayMovingAverage", "78.40"),
    ("SharesOutstanding", "425000000"),
    ("SharesFloat", "420000000"),
    ("PercentInsiders", "0.30"),
    ("PercentInstitutions", "79.40"),
    ("DividendDate", "2025-09-15"),
    ("ExDividendDate", "2025-08-29")],
   [("Symbol", "CE"),
    ("AssetType", "Common Stock"),
    ("Name", "Celanese Corporation"),
    ("Description", "Global chemical and specialty materials company serving diverse end markets."),
    ("CIK", "1306830"),
    ("Exchange", "NYSE"),
    ("Currency", "USD"),
    ("Country", "USA"),
    ("Sector", "Materials"),
    ("Industry", "Specialty Chemicals"),
    ("Address", "222 W Las Colinas Blvd, Irving, TX 75039"),
    ("OfficialSite", "https://www.celanese.com"),
    ("FiscalYearEnd", "December"),
    ("LatestQuarter", "2025-06-30"),
    ("MarketCapitalization", "15500000000"),
    ("EBITDA", "2400000000"),
    ("PERatio", "13.90"),
    ("PEGRatio", "1.20"),
    ("BookValue", "74.30"),
    ("DividendPerShare", "2.80"),
    ("DividendYield", "0.0240"),
    ("EPS", "8.15"),
    ("RevenuePerShareTTM", "88.40"),
    ("ProfitMargin", "0.110"),
    ("OperatingMarginTTM", "0.170"),
    ("ReturnOnAssetsTTM", "0.055"),
    ("ReturnOnEquityTTM", "0.110"),
    ("RevenueTTM", "10500000000"),
    ("GrossProfitTTM", "3000000000"),
    ("DilutedEPSTTM", "8.05"),
    ("QuarterlyEarningsGrowthYOY", "0.090"),
    ("QuarterlyRevenueGrowthYOY", "0.050"),
    ("AnalystTargetPrice", "170.00"),
    ("AnalystRatingStrongBuy", "6"),
    ("AnalystRatingBuy", "8"),
    ("AnalystRatingHold", "7"),
    ("AnalystRatingSell", "1"),
    ("AnalystRatingStrongSell", "0"),
    ("TrailingPE", "14.30"),
    ("ForwardPE", "12.20"),
    ("PriceToSalesRatioTTM", "1.40"),
    ("PriceToBookRatio", "2.10"),
    ("EVToRevenue", "1.90"),
    ("EVToEBITDA", "8.10"),
    ("Beta", "1.20"),
    ("52WeekHigh", "177.40"),
    ("52WeekLow", "121.30"),
    ("50DayMovingAverage", "158.20"),
    ("200DayMovingAverage", "149.90"),
    ("SharesOutstanding", "109000000"),
    ("SharesFloat", "108000000"),
    ("PercentInsiders", "0.80"),
    ("PercentInstitutions", "95.10"),
    ("DividendDate", "2025-09-12"),
    ("ExDividendDate", "2025-08-23")],
   [("Symbol", "LYB"),
    ("AssetType", "Common Stock"),
    ("Name", "LyondellBasell Industries N.V."),
    ("Description", "Leading global producer of plastics, chemicals, and refining products."),
    ("CIK", "1489393"),
    ("Exchange", "NYSE"),
    ("Currency", "USD"),
    ("Country", "Netherlands"),
    ("Sector", "Materials"),
    ("Industry", "Commodity Chemicals"),
    ("Address", "Rotterdam, The Netherlands"),
    ("OfficialSite", "https://www.lyondellbasell.com"),
    ("FiscalYearEnd", "December"),
    ("LatestQuarter", "2025-06-30"),
    ("MarketCapitalization", "30000000000"),
    ("EBITDA", "5200000000"),
    ("PERatio", "12.60"),
    ("PEGRatio", "1.10"),
    ("BookValue", "41.20"),
    ("DividendPerShare", "4.80"),
    ("DividendYield", "0.0520"),
    ("EPS", "8.70"),
    ("RevenuePerShareTTM", "115.30"),
    ("ProfitMargin", "0.095"),
    ("OperatingMarginTTM", "0.130"),
    ("ReturnOnAssetsTTM", "0.070"),
    ("ReturnOnEquityTTM", "0.210"),
    ("RevenueTTM", "36000000000"),
    ("GrossProfitTTM", "8200000000"),
    ("DilutedEPSTTM", "8.55"),
    ("QuarterlyEarningsGrowthYOY", "0.060"),
    ("QuarterlyRevenueGrowthYOY", "0.030"),
    ("AnalystTargetPrice", "110.00"),
    ("AnalystRatingStrongBuy", "4"),
    ("AnalystRatingBuy", "9"),
    ("AnalystRatingHold", "12"),
    ("AnalystRatingSell", "1"),
    ("AnalystRatingStrongSell", "0"),
    ("TrailingPE", "12.90"),
    ("ForwardPE", "11.00"),
    ("PriceToSalesRatioTTM", "0.95"),
    ("PriceToBookRatio", "2.60"),
    ("EVToRevenue", "1.10"),
    ("EVToEBITDA", "6.80"),
    ("Beta", "1.27"),
    ("52WeekHigh", "109.80"),
    ("52WeekLow", "85.40"),
    ("50DayMovingAverage", "102.70"),
    ("200DayMovingAverage", "98.90"),
    ("SharesOutstanding", "325000000"),
    ("SharesFloat", "322000000"),
    ("PercentInsiders", "0.40"),
    ("PercentInstitutions", "76.50"),
    ("DividendDate", "2025-09-05"),
    ("ExDividendDate", "2025-08-12")]
  ]

/-- `get_company_overview` (`client.py:423-426`): the call
`_cached_api_call("OVERVIEW", symbol)` is commented out in the source and
the function returns the `MOCK_OVERVIEW` constant instead, ignoring its
argument and touching neither the store nor the network. The return value
is a list of records (`Sum.inr`), not an orchestrator result. -/
def get_company_overview (symbol : String) (now : Int) (store : Store)
    (transport : Except TransportError Payload) :
    (Except FetchError Payload ⊕ List Payload) × Store :=
  (Sum.inr MOCK_OVERVIEW, store)

/-- `get_income_statement` (`client.py:429-431`):
`return _cached_api_call("INCOME_STATEMENT", symbol)` with the default
`params_extra=None` and `allow_stale_on_limit=True`. -/
def get_income_statement (symbol : String) (now : Int) (store : Store)
    (transport : Except TransportError Payload) :
    (Except FetchError Payload ⊕ List Payload) × Store :=
  let r := cached_api_call "INCOME_STATEMENT" symbol none true now store transport
  (Sum.inl r.1, r.2)

/-! Concrete fixtures used by the witnesses below. -/

/-- a small decodable payload. -/
def demo_payload : Payload := [("Symbol", "IBM")]

/-- a decodable `OVERVIEW` row written at epoch 0 under the empty-params
sentinel fingerprint. -/
def demo_row : Row := ⟨"OVERVIEW", "IBM", ['_'], some demo_payload, 0⟩

/-- a store holding exactly `demo_row`. -/
def demo_store : Store := [demo_row]

/-- a row whose stored text fails to decode. -/
def corrupt_row : Row := ⟨"OVERVIEW", "IBM", ['_'], none, 5⟩

/-- a store holding exactly `corrupt_row`. -/
def corrupt_store : Store := [corrupt_row]

/-- a provider body carrying a rate-limit notice under the `Note` key. -/
def soft_payload : Payload := [("Note", "API rate limit reached")]

/-- an attempt stream answering HTTP 503 on every request. -/
def all_503 : Nat → AttemptOutcome := fun _ => .response 503 []

/-- one-pair mapping whose value embeds the two delimiter characters. -/
def collide_a : List ParamPair := [("a".data, "1|b=2".data)]

/-- two-pair delimiter-free mapping encoding to the same fingerprint text. -/
def collide_b : List ParamPair := [("a".data, "1".data), ("b".data, "2".data)]

/-- the pairs of `collide_b` supplied in the opposite order. -/
def swapped_b : List ParamPair := [("b".data, "2".data), ("a".data, "1".data)]

/-! Order-theoretic facts about the sort key used by `_params_hash`. -/

instance : IsTotal ParamPair pairLe where
  total x y := by
    rcases lt_trichotomy x.1 y.1 with h | h | h
    · exact Or.inl (Or.inl h)
    · rcases le_total x.2 y.2 with h2 | h2
      · exact Or.inl (Or.inr ⟨h, h2⟩)
      · exact Or.inr (Or.inr ⟨h.symm, h2⟩)
    · exact Or.inr (Or.inl h)

instance : IsTrans ParamPair pairLe where
  trans a b c hab hbc := by
    rcases hab with h1 | ⟨h1, h1'⟩
    · rcases hbc with h2 | ⟨h2, _⟩
      · exact Or.inl (lt_trans h1 h2)
      · exact Or.inl (h2 ▸ h1)
    · rcases hbc with h2 | ⟨h2, h2'⟩
      · exact Or.inl (h1 ▸ h2)
      · exact Or.inr ⟨h1.trans h2, le_trans h1' h2'⟩

instance : IsAntisymm ParamPair pairLe where
  antisymm a b hab hba := by
    rcases hab with h1 | ⟨h1, h1'⟩
    · rcases hba with h2 | ⟨h2, _⟩
      · exact absurd h2 (lt_asymm h1)
      · exact absurd (h2 ▸ h1) (lt_irrefl _)
    · rcases hba with h2 | ⟨h2, h2'⟩
      · exact absurd (h1 ▸ h2) (lt_irrefl _)
      · exact Prod.ext h1 (le_antisymm h1' h2')

/-- the `'='` separator belongs to every encoded `key=value` pair. -/
theorem eq_mem_encode_pair (kv : ParamPair) : '=' ∈ encode_pair kv := by
  unfold encode_pair
  exact List.mem_append_right _ (List.mem_cons_self _ _)

/-- an encoded pair contains no `'|'` when neither component does. -/
theorem pipe_not_mem_encode_pair (kv : ParamPair)
    (h1 : '|' ∉ kv.1) (h2 : '|' ∉ kv.2) : '|' ∉ encode_pair kv := by
  unfold encode_pair
  intro hmem
  rcases List.mem_append.1 hmem with h | h
  · exact h1 h
  · rcases List.mem_cons.1 h with h | h
    · exact absurd h (by decide)
    · exact h2 h

theorem append_eq_sep_inj {k1 k2 v1 v2 : Str}
    (ha : '=' ∉ k1) (hb : '=' ∉ k2)
    (h : k1 ++ '=' :: v1 = k2 ++ '=' :: v2) : k1 = k2 ∧ v1 = v2 := by
  induction k1 generalizing k2 with
  | nil =>
    cases k2 with
    | nil => exact ⟨rfl, (List.cons.injEq _ _ _ _ ▸ h).2⟩
    | cons c k2' =>
      exfalso
      have : '=' = c := (List.cons.injEq _ _ _ _ ▸ h).1
      exact hb (this ▸ List.mem_cons_self c k2')
  | cons a k1' ih =>
    cases k2 with
    | nil =>
      exfalso
      have : a = '=' := (List.cons.injEq _ _ _ _ ▸ h).1
      exact ha (this ▸ List.mem_cons_self a k1')
    | cons b k2' =>
      have h1 : a = b := (List.cons.injEq _ _ _ _ ▸ h).1
      have h2 : k1' ++ '=' :: v1 = k2' ++ '=' :: v2 := (List.cons.injEq _ _ _ _ ▸ h).2
      have ih' := ih (fun hm => ha (List.mem_cons_of_mem _ hm))
        (fun hm => hb (List.mem_cons_of_mem _ hm)) h2
      exact ⟨by rw [h1, ih'.1], ih'.2⟩

/-- `encode_pair` is injective on pairs whose keys avoid `'='`. -/
theorem encode_pair_inj {a b : ParamPair}
    (ha : '=' ∉ a.1) (hb : '=' ∉ b.1)
    (h : encode_pair a = encode_pair b) : a = b := by
  have := append_eq_sep_inj ha hb h
  exact Prod.ext this.1 this.2

theorem map_encode_pair_inj {l1 l2 : List ParamPair}
    (h1 : ∀ kv ∈ l1, '=' ∉ kv.1) (h2 : ∀ kv ∈ l2, '=' ∉ kv.1)
    (h : l1.map encode_pair = l2.map encode_pair) : l1 = l2 := by
  induction l1 generalizing l2 with
  | nil => cases l2 with
    | nil => rfl
    | cons b tl => simp at h
  | cons a tl ih =>
    cases l2 with
    | nil => simp at h
    | cons b tl2 =>
      simp only [List.map_cons, List.cons.injEq] at h
      have hab : a = b :=
        encode_pair_inj (h1 a (List.mem_cons_self _ _)) (h2 b (List.mem_cons_self _ _)) h.1
      have := ih (fun kv hm => h1 kv (List.mem_cons_of_mem _ hm))
        (fun kv hm => h2 kv (List.mem_cons_of_mem _ hm)) h.2
      rw [hab, this]

/-- the fingerprint of a nonempty mapping contains the `'='` character. -/
theorem eq_mem_params_hash {P : List ParamPair} (hne : P ≠ []) :
    '=' ∈ params_hash P := by
  unfold params_hash
  have hlen : (List.insertionSort pairLe P).length = P.length :=
    (List.perm_insertionSort pairLe P).length_eq
  cases hs : List.insertionSort pairLe P with
  | nil =>
    exfalso
    apply hne
    have := hlen
    rw [hs] at this
    exact List.eq_nil_of_length_eq_zero this.symm
  | cons a tl =>
    simp only [hs, List.isEmpty_cons, List.map_cons, if_neg]
    cases tl with
    | nil =>
      simp only [List.map_nil, List.intercalate, List.intersperse,
        List.flatten_cons, List.flatten_nil, List.append_nil]
      exact eq_mem_encode_pair a
    | cons b tl' =>
      simp only [List.map_cons, List.intercalate, List.intersperse,
        List.flatten_cons]
      exact List.mem_append_left _ (eq_mem_encode_pair a)


theorem params_hash_nonempty_eq {P : List ParamPair} (hne : P ≠ []) :
    params_hash P
      = List.intercalate ['|'] ((List.insertionSort pairLe P).map encode_pair) := by
  unfold params_hash
  cases hs : List.insertionSort pairLe P with
  | nil =>
    exfalso
    apply hne
    apply List.eq_nil_of_length_eq_zero
    rw [← (List.perm_insertionSort pairLe P).length_eq, hs]
    rfl
  | cons a tl => simp [hs]

/-- equal fingerprints of delimiter-free mappings force the mappings to
hold the same key-value pairs. -/
theorem params_hash_eq_perm {P1 P2 : List ParamPair}
    (h1 : delim_free P1) (h2 : delim_free P2)
    (h : params_hash P1 = params_hash P2) : P1.Perm P2 := by
  by_cases e1 : P1 = []
  · by_cases e2 : P2 = []
    · subst e1; subst e2; exact List.Perm.refl []
    · exfalso
      have hm : '=' ∈ params_hash P2 := eq_mem_params_hash e2
      rw [← h, e1] at hm
      exact absurd hm (by decide)
  · by_cases e2 : P2 = []
    · exfalso
      have hm : '=' ∈ params_hash P1 := eq_mem_params_hash e1
      rw [h, e2] at hm
      exact absurd hm (by decide)
    · have hael1 : ∀ l ∈ (List.insertionSort pairLe P1).map encode_pair, '|' ∉ l := by
        intro l hl
        rcases List.mem_map.1 hl with ⟨kv, hkv, rfl⟩
        have hkv' : kv ∈ P1 := (List.mem_insertionSort pairLe).1 hkv
        exact pipe_not_mem_encode_pair kv (h1 kv hkv').2.2.1 (h1 kv hkv').2.2.2
      have hael2 : ∀ l ∈ (List.insertionSort pairLe P2).map encode_pair, '|' ∉ l := by
        intro l hl
        rcases List.mem_map.1 hl with ⟨kv, hkv, rfl⟩
        have hkv' : kv ∈ P2 := (List.mem_insertionSort pairLe).1 hkv
        exact pipe_not_mem_encode_pair kv (h2 kv hkv').2.2.1 (h2 kv hkv').2.2.2
      have hne1 : (List.insertionSort pairLe P1).map encode_pair ≠ [] := by
        simp only [ne_eq, List.map_eq_nil_iff]
        intro hnil
        exact e1 (List.eq_nil_of_length_eq_zero
          (by rw [← (List.perm_insertionSort pairLe P1).length_eq, hnil]; rfl))
      have hne2 : (List.insertionSort pairLe P2).map encode_pair ≠ [] := by
        simp only [ne_eq, List.map_eq_nil_iff]
        intro hnil
        exact e2 (List.eq_nil_of_length_eq_zero
          (by rw [← (List.perm_insertionSort pairLe P2).length_eq, hnil]; rfl))
      have hmap : (List.insertionSort pairLe P1).map encode_pair
          = (List.insertionSort pairLe P2).map encode_pair := by
        have hs1 := List.splitOn_intercalate _ '|' hael1 hne1
        have hs2 := List.splitOn_intercalate _ '|' hael2 hne2
        rw [← hs1, ← hs2, ← params_hash_nonempty_eq e1, ← params_hash_nonempty_eq e2, h]
      have hsort : List.insertionSort pairLe P1 = List.insertionSort pairLe P2 :=
        map_encode_pair_inj
          (fun kv hkv => (h1 kv ((List.mem_insertionSort pairLe).1 hkv)).1)
          (fun kv hkv => (h2 kv ((List.mem_insertionSort pairLe).1 hkv)).1)
          hmap
      exact (List.perm_insertionSort pairLe P1).symm.trans
        (hsort ▸ List.perm_insertionSort pairLe P2)

/-- permutation-equivalent parameter mappings fingerprint identically. -/
theorem params_hash_perm_eq {P1 P2 : List ParamPair} (h : P1.Perm P2) :
    params_hash P1 = params_hash P2 := by
  have hsort : List.insertionSort pairLe P1 = List.insertionSort pairLe P2 :=
    List.eq_of_perm_of_sorted
      ((List.perm_insertionSort pairLe P1).trans
        (h.trans (List.perm_insertionSort pairLe P2).symm))
      (List.sorted_insertionSort pairLe P1) (List.sorted_insertionSort pairLe P2)
  unfold params_hash
  rw [hsort]

/-! Helper lemmas about the store and the retry loop. -/

theorem filter_of_filter_not (l : List Row) (p : Row → Bool) :
    (l.filter (fun r => !(p r))).filter p = [] := by
  rw [List.filter_eq_nil_iff]
  intro a ha
  have h1 : (!(p a)) = true := (List.mem_filter.1 ha).2
  simp only [Bool.not_eq_true'] at h1
  simp [h1]

theorem row_key_eq_iff (r : Row) (f s : String) (ph : Str) :
    row_key_eq r f s ph = true ↔ (r.function = f ∧ r.symbol = s ∧ r.params_hash = ph) := by
  unfold row_key_eq
  simp [Bool.and_assoc]

theorem cache_set_preserves_inv (store : Store) (f s : String)
    (pe : Option (List ParamPair)) (payload : Payload) (ts : Int)
    (hinv : at_most_one_per_key store) :
    at_most_one_per_key (cache_set store f s pe payload ts) := by
  intro f' s' ph'
  unfold rows_for_key cache_set
  rw [List.filter_append, List.length_append]
  set ph := params_hash (pe.getD []) with hph
  by_cases hq : row_key_eq ⟨f, s, ph, some payload, ts⟩ f' s' ph' = true
  · have hkey : f = f' ∧ s = s' ∧ ph = ph' := (row_key_eq_iff _ _ _ _).1 hq
    obtain ⟨rfl, rfl, rfl⟩ := hkey
    have hz : (store.filter (fun r => !(row_key_eq r f s ph))).filter
        (fun r => row_key_eq r f s ph) = [] := filter_of_filter_not store _
    rw [hz]
    simp [List.filter_cons, row_key_eq]
  · have hz : List.filter (fun r => row_key_eq r f' s' ph') [(⟨f, s, ph, some payload, ts⟩ : Row)] = [] := by
      simp [List.filter_cons, hq]
    rw [hz]
    simp only [List.length_nil, Nat.add_zero]
    calc ((store.filter (fun r => !(row_key_eq r f s ph))).filter
            (fun r => row_key_eq r f' s' ph')).length
        ≤ (store.filter (fun r => row_key_eq r f' s' ph')).length :=
          ((store.filter_sublist (p := fun r => !(row_key_eq r f s ph))).filter _).length_le
      _ ≤ 1 := hinv f' s' ph'

theorem cache_set_twice_rows (store : Store) (f s : String)
    (pe : Option (List ParamPair)) (p1 p2 : Payload) (t1 t2 : Int) :
    rows_for_key (cache_set (cache_set store f s pe p1 t1) f s pe p2 t2) f s
        (params_hash (pe.getD []))
      = [⟨f, s, params_hash (pe.getD []), some p2, t2⟩] := by
  unfold rows_for_key cache_set
  rw [List.filter_append, filter_of_filter_not]
  simp [List.filter_cons, row_key_eq]

theorem run_retries_attempts_le (p : RetryPolicy) (outcomes : Nat → AttemptOutcome) :
    ∀ r i, (run_retries p outcomes r i).2.1 ≤ i + r + 1 := by
  intro r
  induction r with
  | zero =>
    intro i
    cases h : outcomes i with
    | conn_failure => simp [run_retries, h]
    | response st body =>
      simp only [run_retries, h]
      split <;> simp
  | succ r ih =>
    intro i
    cases h : outcomes i with
    | conn_failure =>
      have := ih (i + 1)
      simp only [run_retries, h]
      omega
    | response st body =>
      have := ih (i + 1)
      simp only [run_retries, h]
      split
      · dsimp only
        omega
      · simp

theorem run_retries_mid_retryable (p : RetryPolicy) (outcomes : Nat → AttemptOutcome) :
    ∀ r i j, i ≤ j → j + 1 < (run_retries p outcomes r i).2.1 →
      attempt_retryable p (outcomes j) = true := by
  intro r
  induction r with
  | zero =>
    intro i j hij hlt
    exfalso
    cases h : outcomes i with
    | conn_failure => simp [run_retries, h] at hlt; omega
    | response st body =>
      simp only [run_retries, h] at hlt
      split at hlt <;> simp at hlt <;> omega
  | succ r ih =>
    intro i j hij hlt
    cases h : outcomes i with
    | conn_failure =>
      simp only [run_retries, h] at hlt
      rcases Nat.eq_or_lt_of_le hij with rfl | hij'
      · simp [attempt_retryable, h]
      · exact ih (i + 1) j hij' hlt
    | response st body =>
      simp only [run_retries, h] at hlt
      split at hlt
      next hmem =>
        simp only [] at hlt
        rcases Nat.eq_or_lt_of_le hij with rfl | hij'
        · simp only [attempt_retryable, h]
          exact hmem
        · exact ih (i + 1) j hij' hlt
      next hmem =>
        simp at hlt
        omega

theorem store_unchanged_on_error (f s : String) (pe : Option (List ParamPair))
    (allow : Bool) (now : Int) (store : Store) (e : TransportError) :
    (cached_api_call f s pe allow now store (Except.error e)).2 = store := by
  cases hc : cache_get store f s (some (pe.getD [])) with
  | none => simp [cached_api_call, after_miss, hc]
  | some c =>
    by_cases hf : now - c.ts < ttl_for f <;>
      simp [cached_api_call, after_miss, hc, hf]

/-! Claim theorems. -/

/-- C1, counterexample: the claim that `get_company_overview` returns
exactly the result of the orchestrator with the fixed tag `"OVERVIEW"` is
false: on an empty store with a failing transport the orchestrator
propagates the failure, while `get_company_overview` returns the
hard-coded `MOCK_OVERVIEW` list (the orchestrator call is commented out
at `client.py:425`). -/
theorem overview_wrapper_mock_counterexample :
    ¬ (get_company_overview "TEL" 0 [] (Except.error TransportError.retry_error)
        = (Sum.inl (cached_api_call "OVERVIEW" "TEL" none true 0 []
            (Except.error TransportError.retry_error)).1,
           (cached_api_call "OVERVIEW" "TEL" none true 0 []
            (Except.error TransportError.retry_error)).2)) := by
  intro h
  have h1 := congrArg Prod.fst h
  simp [get_company_overview] at h1

/-- C1, amended: `get_income_statement` is exactly the orchestrator
invoked with the fixed tag `"INCOME_STATEMENT"` and the entity
identifier; `get_company_overview`, however, returns the fixed
`MOCK_OVERVIEW` constant, ignoring its entity identifier and leaving the
store unchanged, with no orchestrator interaction. -/
theorem wrapper_tag_behavior (symbol : String) (now : Int) (store : Store)
    (t : Except TransportError Payload) :
    get_income_statement symbol now store t
      = (Sum.inl (cached_api_call "INCOME_STATEMENT" symbol none true now store t).1,
         (cached_api_call "INCOME_STATEMENT" symbol none true now store t).2)
    ∧ get_company_overview symbol now store t = (Sum.inr MOCK_OVERVIEW, store) :=
  ⟨rfl, rfl⟩

/-- C2: when the store holds an entry for the derived key whose age is
strictly below the TTL of the function (24 hours for functions without
an explicit TTL mapping), the orchestrator returns that entry's payload,
leaves the store unchanged, and its outcome does not depend on the
transport (no network call is consulted). -/
theorem fresh_hit_returns_cached (f s : String) (pe : Option (List ParamPair))
    (allow : Bool) (now : Int) (store : Store)
    (t t' : Except TransportError Payload) (c : CacheHit)
    (hget : cache_get store f s (some (pe.getD [])) = some c)
    (hfresh : now - c.ts < ttl_for f) :
    cached_api_call f s pe allow now store t = (Except.ok c.data, store)
    ∧ cached_api_call f s pe allow now store t
        = cached_api_call f s pe allow now store t'
    ∧ (∀ g : String, g ≠ "OVERVIEW" → g ≠ "INCOME_STATEMENT" →
        ttl_for g = 24 * 3600) := by
  refine ⟨?_, ?_, ?_⟩
  · simp [cached_api_call, hget, hfresh]
  · simp [cached_api_call, hget, hfresh]
  · intro g h1 h2
    have hb1 : (("OVERVIEW" : String) == g) = false := beq_eq_false_iff_ne.2 (Ne.symm h1)
    have hb2 : (("INCOME_STATEMENT" : String) == g) = false := beq_eq_false_iff_ne.2 (Ne.symm h2)
    simp [ttl_for, TTL_BY_FUNCTION, List.find?, hb1, hb2]

/-- C2, witness at a concrete fresh hit. -/
theorem fresh_hit_returns_cached_witness :
    cache_get demo_store "OVERVIEW" "IBM"
        (some ((none : Option (List ParamPair)).getD [])) = some ⟨demo_payload, 0⟩
    ∧ ((100 : Int) - (⟨demo_payload, 0⟩ : CacheHit).ts < ttl_for "OVERVIEW")
    ∧ cached_api_call "OVERVIEW" "IBM" none true 100 demo_store (Except.ok [])
        = (Except.ok (⟨demo_payload, 0⟩ : CacheHit).data, demo_store) :=
  ⟨by decide, by decide,
   (fresh_hit_returns_cached "OVERVIEW" "IBM" none true 100 demo_store
      (Except.ok []) (Except.error TransportError.retry_error) ⟨demo_payload, 0⟩
      (by decide) (by decide)).1⟩

/-- C3: when the transport response body is classified as a soft provider
error, an existing stored entry with stale fallback allowed is returned
unchanged (the store, and in particular the entry's timestamp, is not
touched); with no stored entry the call fails with the `RuntimeError`
carrying the provider's own message; in neither case is the store
written. -/
theorem soft_error_stale_or_raise (f s : String) (pe : Option (List ParamPair))
    (allow : Bool) (now : Int) (store : Store) (data : Payload)
    (hsoft : is_limit_or_error data = true) :
    (∀ c : CacheHit, cache_get store f s (some (pe.getD [])) = some c →
        cached_api_call f s pe true now store (Except.ok data)
          = (Except.ok c.data, store))
    ∧ (cache_get store f s (some (pe.getD [])) = none →
        cached_api_call f s pe allow now store (Except.ok data)
          = (Except.error (FetchError.runtime (api_error_message data)), store)) := by
  constructor
  · intro c hc
    by_cases hf : now - c.ts < ttl_for f <;>
      simp [cached_api_call, after_miss, hc, hf, hsoft]
  · intro hc
    simp [cached_api_call, after_miss, hc, hsoft]

/-- C3, witness: a rate-limit body against a store with an entry (stale
hit) and against an empty store (descriptive failure). -/
theorem soft_error_stale_or_raise_witness :
    is_limit_or_error soft_payload = true
    ∧ cached_api_call "OVERVIEW" "IBM" none true 999999 demo_store (Except.ok soft_payload)
        = (Except.ok demo_payload, demo_store)
    ∧ cached_api_call "OVERVIEW" "IBM" none true 999999 [] (Except.ok soft_payload)
        = (Except.error (FetchError.runtime (api_error_message soft_payload)), []) :=
  ⟨by decide,
   (soft_error_stale_or_raise "OVERVIEW" "IBM" none true 999999 demo_store
      soft_payload (by decide)).1 ⟨demo_payload, 0⟩ (by decide),
   (soft_error_stale_or_raise "OVERVIEW" "IBM" none true 999999 []
      soft_payload (by decide)).2 (by decide)⟩

/-- C4: when the entry for the key is missing or stale and the transport
call fails with a hard transport error, the orchestrator propagates the
failure and the store is returned unchanged (no write, no stale
fallback). -/
theorem hard_error_propagates (f s : String) (pe : Option (List ParamPair))
    (allow : Bool) (now : Int) (store : Store) (e : TransportError)
    (hstale : ∀ c : CacheHit, cache_get store f s (some (pe.getD [])) = some c →
        ¬ (now - c.ts < ttl_for f)) :
    cached_api_call f s pe allow now store (Except.error e)
      = (Except.error (FetchError.transport e), store) := by
  cases hc : cache_get store f s (some (pe.getD [])) with
  | none => simp [cached_api_call, after_miss, hc]
  | some c =>
    have hnf := hstale c hc
    simp [cached_api_call, after_miss, hc, hnf]

/-- C4, witness: a stale entry and a transport failure. -/
theorem hard_error_propagates_witness :
    (∀ c : CacheHit, cache_get demo_store "OVERVIEW" "IBM"
        (some ((none : Option (List ParamPair)).getD [])) = some c →
        ¬ ((999999 : Int) - c.ts < ttl_for "OVERVIEW"))
    ∧ cached_api_call "OVERVIEW" "IBM" none true 999999 demo_store
        (Except.error TransportError.retry_error)
      = (Except.error (FetchError.transport TransportError.retry_error), demo_store) := by
  have hst : ∀ c : CacheHit, cache_get demo_store "OVERVIEW" "IBM"
      (some ((none : Option (List ParamPair)).getD [])) = some c →
      ¬ ((999999 : Int) - c.ts < ttl_for "OVERVIEW") := by
    intro c hc
    have h0 : cache_get demo_store "OVERVIEW" "IBM"
        (some ((none : Option (List ParamPair)).getD [])) = some ⟨demo_payload, 0⟩ := by
      decide
    rw [h0] at hc
    cases Option.some.inj hc
    decide
  exact ⟨hst, hard_error_propagates "OVERVIEW" "IBM" none true 999999 demo_store
    TransportError.retry_error hst⟩

/-- C5, counterexample: with `Retry(total=3)` the configured transport
makes 4 attempts (one initial request plus 3 retries) when the provider
answers HTTP 503 on every attempt, not the claimed "at most 3 attempts in
total": `total` counts retries, not requests. -/
theorem retry_attempts_counterexample :
    (session_get build_session_retry all_503).2.1 = 4
    ∧ ¬ ((session_get build_session_retry all_503).2.1 ≤ 3) := by
  decide

/-- C5, amended: the transport layer makes at most 4 attempts in total
(one initial request plus up to 3 retries); another attempt follows an
attempt only when its outcome was retryable (a connection failure or an
HTTP status in {429, 500, 502, 503, 504}); when the provider returns
HTTP 503 on every attempt the request fails with exhausted retries after
4 attempts with backoff sleeps of 1s, 2s, 4s before the retries; and a
transport failure reaches the orchestrator with the store unchanged (no
cache write). -/
theorem retry_policy_behavior (outcomes : Nat → AttemptOutcome) :
    (session_get build_session_retry outcomes).2.1 ≤ 4
    ∧ (∀ j, j + 1 < (session_get build_session_retry outcomes).2.1 →
        attempt_retryable build_session_retry (outcomes j) = true)
    ∧ ((∀ i, outcomes i = AttemptOutcome.response 503 []) →
        session_get build_session_retry outcomes
          = (SessionResult.retries_exhausted, 4, [1, 2, 4]))
    ∧ (∀ (f s : String) (pe : Option (List ParamPair)) (allow : Bool)
        (now : Int) (store : Store) (e : TransportError),
        (cached_api_call f s pe allow now store (Except.error e)).2 = store) := by
  refine ⟨?_, ?_, ?_, ?_⟩
  · have h := run_retries_attempts_le build_session_retry outcomes 3 0
    simp only [session_get, build_session_retry] at *
    omega
  · intro j hj
    exact run_retries_mid_retryable build_session_retry outcomes
      build_session_retry.total 0 j (Nat.zero_le j) hj
  · intro hall
    have ho : outcomes = all_503 := funext hall
    rw [ho]
    decide
  · intro f s pe allow now store e
    exact store_unchanged_on_error f s pe allow now store e

/-- C5, witness at the all-503 attempt stream. -/
theorem retry_policy_behavior_witness :
    (session_get build_session_retry all_503).2.1 ≤ 4
    ∧ session_get build_session_retry all_503
        = (SessionResult.retries_exhausted, 4, [1, 2, 4])
    ∧ (cached_api_call "INCOME_STATEMENT" "IBM" none true 0 []
        (Except.error TransportError.retry_error)).2 = [] :=
  ⟨(retry_policy_behavior all_503).1,
   (retry_policy_behavior all_503).2.2.1 (fun _ => rfl),
   (retry_policy_behavior all_503).2.2.2 "INCOME_STATEMENT" "IBM" none true 0 []
     TransportError.retry_error⟩

/-- C6, counterexample: the fingerprint is not injective on arbitrary
mappings: a value embedding the delimiter characters collides with a
two-pair mapping, although the two mappings disagree on the key `"b"`. -/
theorem params_hash_collision :
    params_hash collide_a = params_hash collide_b
    ∧ ¬ collide_a.Perm collide_b
    ∧ param_get collide_a ("b".data) ≠ param_get collide_b ("b".data) := by
  decide

/-- C6, amended: on mappings whose keys and values avoid the delimiter
characters `'='` and `'|'`, equal fingerprints force the mappings to hold
the same key-value pairs; and the empty-mapping sentinel `"_"` differs
from the fingerprint of every non-empty mapping. -/
theorem params_hash_injective_delim_free (P1 P2 : List ParamPair)
    (h1 : delim_free P1) (h2 : delim_free P2) :
    (params_hash P1 = params_hash P2 → P1.Perm P2)
    ∧ (P1 ≠ [] → params_hash P1 ≠ ['_']) := by
  constructor
  · exact params_hash_eq_perm h1 h2
  · intro hne heq
    have hm := eq_mem_params_hash hne
    rw [heq] at hm
    exact absurd hm (by decide)

/-- C6, witness at concrete delimiter-free mappings. -/
theorem params_hash_injective_delim_free_witness :
    delim_free collide_b ∧ delim_free swapped_b
    ∧ collide_b.Perm swapped_b
    ∧ params_hash collide_b ≠ ['_'] :=
  ⟨by decide, by decide,
   (params_hash_injective_delim_free collide_b swapped_b (by decide) (by decide)).1
     (by decide),
   (params_hash_injective_delim_free collide_b swapped_b (by decide) (by decide)).2
     (by decide)⟩

/-- C7: the fingerprint is order-independent: permutation-equivalent
parameter mappings fingerprint identically, and the function is pure
(equal inputs give equal fingerprints). -/
theorem params_hash_perm_invariant (P1 P2 : List ParamPair) (h : P1.Perm P2) :
    params_hash P1 = params_hash P2
    ∧ (∀ P : List ParamPair, params_hash P = params_hash P) :=
  ⟨params_hash_perm_eq h, fun _ => rfl⟩

/-- C7, witness: the two supply orders of the same two pairs. -/
theorem params_hash_perm_invariant_witness :
    collide_b.Perm swapped_b ∧ params_hash collide_b = params_hash swapped_b :=
  ⟨by decide, (params_hash_perm_invariant collide_b swapped_b (by decide)).1⟩

/-- C8: `REPLACE INTO` upsert semantics: setting preserves the at most
one row per primary key invariant; setting twice under the same key
leaves exactly one row for that key, holding the later write's payload
and timestamp; and re-running schema initialization on an existing store
is a no-op (so it too preserves the invariant). -/
theorem cache_set_upsert (store : Store) (f s : String)
    (pe : Option (List ParamPair)) (p1 p2 : Payload) (t1 t2 : Int)
    (hinv : at_most_one_per_key store) :
    at_most_one_per_key (cache_set store f s pe p1 t1)
    ∧ rows_for_key (cache_set (cache_set store f s pe p1 t1) f s pe p2 t2) f s
        (params_hash (pe.getD []))
      = [⟨f, s, params_hash (pe.getD []), some p2, t2⟩]
    ∧ init_cache (some store) = store
    ∧ at_most_one_per_key (init_cache (some store)) :=
  ⟨cache_set_preserves_inv store f s pe p1 t1 hinv,
   cache_set_twice_rows store f s pe p1 p2 t1 t2,
   rfl, hinv⟩

/-- C8, witness: two writes under one key starting from the empty store. -/
theorem cache_set_upsert_witness :
    at_most_one_per_key ([] : Store)
    ∧ rows_for_key (cache_set (cache_set [] "OVERVIEW" "IBM" none demo_payload 1)
        "OVERVIEW" "IBM" none demo_payload 2) "OVERVIEW" "IBM"
        (params_hash ((none : Option (List ParamPair)).getD []))
      = [⟨"OVERVIEW", "IBM", params_hash ((none : Option (List ParamPair)).getD []),
          some demo_payload, 2⟩] := by
  have hinv : at_most_one_per_key ([] : Store) := by
    intro f s ph
    simp [rows_for_key]
  exact ⟨hinv,
    (cache_set_upsert [] "OVERVIEW" "IBM" none demo_payload demo_payload 1 2 hinv).2.1⟩

/-- C9: `cache_get` returns the stored payload and timestamp when the row
for the key is present and decodable, returns nothing when the row is
absent, and returns nothing when the row's stored text fails to decode;
in the corrupt case the orchestrator behaves exactly as on a cache miss,
so the corruption never surfaces as an error to the caller. -/
theorem cache_get_decode_behavior (store : Store) (f s : String)
    (pe : Option (List ParamPair)) (allow : Bool) (now : Int)
    (t : Except TransportError Payload) :
    (∀ (r : Row) (d : Payload),
        store.find? (fun r' => row_key_eq r' f s (params_hash (pe.getD []))) = some r →
        r.response = some d → cache_get store f s pe = some ⟨d, r.timestamp⟩)
    ∧ (store.find? (fun r' => row_key_eq r' f s (params_hash (pe.getD []))) = none →
        cache_get store f s pe = none)
    ∧ (∀ r : Row,
        store.find? (fun r' => row_key_eq r' f s (params_hash (pe.getD []))) = some r →
        r.response = none →
        cache_get store f s pe = none
        ∧ cached_api_call f s pe allow now store t
            = after_miss f s (pe.getD []) allow now store none t) := by
  refine ⟨?_, ?_, ?_⟩
  · intro r d hf hr
    simp [cache_get, hf, hr]
  · intro hf
    simp [cache_get, hf]
  · intro r hf hr
    have hget : cache_get store f s (some (pe.getD [])) = none := by
      simp [cache_get, hf, hr]
    refine ⟨hget, ?_⟩
    simp [cached_api_call, hget]

/-- C9, witness at a store holding one corrupt row. -/
theorem cache_get_decode_behavior_witness :
    corrupt_store.find? (fun r' => row_key_eq r' "OVERVIEW" "IBM"
        (params_hash ((none : Option (List ParamPair)).getD []))) = some corrupt_row
    ∧ corrupt_row.response = none
    ∧ cache_get corrupt_store "OVERVIEW" "IBM" none = none
    ∧ cached_api_call "OVERVIEW" "IBM" none true 10 corrupt_store
        (Except.ok demo_payload)
      = after_miss "OVERVIEW" "IBM" ((none : Option (List ParamPair)).getD []) true 10
          corrupt_store none (Except.ok demo_payload) := by
  have h := (cache_get_decode_behavior corrupt_store "OVERVIEW" "IBM" none true 10
    (Except.ok demo_payload)).2.2 corrupt_row (by decide) rfl
  exact ⟨by decide, rfl, h.1, h.2⟩

/-- C10: the freshness boundary is exclusive: an entry whose age equals
the function's TTL fails the strict test `now - ts < ttl`, and the
orchestrator proceeds exactly as on the miss/stale path (consulting the
transport) instead of returning the fresh hit. -/
theorem ttl_boundary_exclusive (f s : String) (pe : Option (List ParamPair))
    (allow : Bool) (now : Int) (store : Store)
    (t : Except TransportError Payload) (c : CacheHit)
    (hget : cache_get store f s (some (pe.getD [])) = some c)
    (hage : now - c.ts = ttl_for f) :
    ¬ (now - c.ts < ttl_for f)
    ∧ cached_api_call f s pe allow now store t
        = after_miss f s (pe.getD []) allow now store (some c) t := by
  have hnl : ¬ (now - c.ts < ttl_for f) := by
    rw [hage]
    exact lt_irrefl _
  refine ⟨hnl, ?_⟩
  simp [cached_api_call, hget, hnl]

/-- C10, witness: an entry aged exactly 86400 seconds under `OVERVIEW`. -/
theorem ttl_boundary_exclusive_witness :
    cache_get demo_store "OVERVIEW" "IBM"
        (some ((none : Option (List ParamPair)).getD [])) = some ⟨demo_payload, 0⟩
    ∧ ((86400 : Int) - (⟨demo_payload, 0⟩ : CacheHit).ts = ttl_for "OVERVIEW")
    ∧ cached_api_call "OVERVIEW" "IBM" none true 86400 demo_store
        (Except.ok demo_payload)
      = after_miss "OVERVIEW" "IBM" ((none : Option (List ParamPair)).getD []) true
          86400 demo_store (some ⟨demo_payload, 0⟩) (Except.ok demo_payload) :=
  ⟨by decide, by decide,
   (ttl_boundary_exclusive "OVERVIEW" "IBM" none true 86400 demo_store
      (Except.ok demo_payload) ⟨demo_payload, 0⟩ (by decide) (by decide)).2⟩
